import Mathlib

/-
Verification of the Document Node Model: a shallow embedding of the
DocumentNode class (model/DocumentNode of the substance repository) together
with the Document / path-event-proxy / event-emitter collaborators it calls
into, the latter modelled from the design document since their code is not
part of the checked sources.

Conventions of the embedding: JavaScript `undefined` values become `none`,
handlers and subscription contexts are opaque and modelled as numbers, and a
method that can throw returns `Except JsError`.
-/

namespace Substance

/-- Static per-type data of a node class: the declared schema (the property
names found on `Constructor.schema`) and the category flags declared on the
constructor function, all of which default to `false` exactly as the
`DocumentNode.isBlock = false` (etc.) static declarations set them. -/
structure NodeType where
  schema : List String := []
  isBlock : Bool := false
  isText : Bool := false
  isPropertyAnnotation : Bool := false
  isInline : Bool := false
  isContainerAnnotation : Bool := false
deriving DecidableEq, Repr

/-- A document node instance: its id, the static data of its type, the
optional `parent` id, and the transient highlight state. A freshly
constructed node has never had `setHighlighted` called, so `highlighted`
starts out as the JavaScript `undefined`, here `none`. -/
structure DocumentNode where
  id : String
  nodeType : NodeType := {}
  parent : Option String := none
  highlighted : Option Bool := none
  highlightedScope : Option String := none
deriving DecidableEq, Repr

/-- Modelled from the spec: the path event proxy is a per-document registry
mapping `(nodeId, propertyName)` paths to subscriber lists. An entry is
`(nodeId, propertyName, handler, context)`, kept in subscription order. -/
structure ProxyState where
  entries : List (String × String × Nat × Nat) := []
deriving DecidableEq, Repr

/-- Modelled from the spec: `proxy.on(path, handler, ctx)` registers interest
in one specific `(nodeId, propertyName)` pair, appended in subscription
order. -/
def ProxyState.on (st : ProxyState) (path : String × String) (handler ctx : Nat) :
    ProxyState :=
  ⟨st.entries ++ [(path.1, path.2, handler, ctx)]⟩

/-- Modelled from the spec: `proxy.off(ctx)` deregisters all path-proxy
subscriptions owned by that context. -/
def ProxyState.offContext (st : ProxyState) (ctx : Nat) : ProxyState :=
  ⟨st.entries.filter (fun e => !(e.2.2.2 == ctx))⟩

/-- Which entries `proxy.off(ctx, path, handler)` removes: those on exactly
that path and owned by that context, further filtered by the handler when one
is given. -/
def pathOffMatch (ctx : Nat) (path : String × String) (handler : Option Nat)
    (e : String × String × Nat × Nat) : Bool :=
  e.1 == path.1 && e.2.1 == path.2 && e.2.2.2 == ctx &&
    (match handler with
     | none => true
     | some h => e.2.2.1 == h)

/-- Modelled from the spec: `proxy.off(ctx, path, handler)` removes the
corresponding path-proxy subscription. -/
def ProxyState.offPath (st : ProxyState) (ctx : Nat) (path : String × String)
    (handler : Option Nat) : ProxyState :=
  ⟨st.entries.filter (fun e => !(pathOffMatch ctx path handler e))⟩

/-- Modelled from the spec: the local listener list of the event-emitter base
class behind `super.on` / `super.off`. An entry is
`(eventName, handler, context)`, kept in subscription order. -/
structure EmitterState where
  listeners : List (String × Nat × Nat) := []
deriving DecidableEq, Repr

/-- Modelled from the spec: `super.on(eventName, handler, ctx)` installs a
plain local subscription on the node object. -/
def EmitterState.on (st : EmitterState) (eventName : String) (handler ctx : Nat) :
    EmitterState :=
  ⟨st.listeners ++ [(eventName, handler, ctx)]⟩

/-- Which local subscriptions `super.off(ctx, eventName, handler)` removes:
those owned by the context, further filtered by event name and handler when
those are given (an absent or empty event name, both falsy, filters
nothing). -/
def localOffMatch (ctx : Nat) (eventName : Option String) (handler : Option Nat)
    (l : String × Nat × Nat) : Bool :=
  l.2.2 == ctx &&
    (match eventName with
     | none => true
     | some ev => if ev == "" then true else l.1 == ev) &&
    (match handler with
     | none => true
     | some h => l.2.1 == h)

/-- Modelled from the spec: `super.off(ctx, eventName, handler)` deregisters
the matching local subscriptions owned by the context. -/
def EmitterState.off (st : EmitterState) (ctx : Nat) (eventName : Option String)
    (handler : Option Nat) : EmitterState :=
  ⟨st.listeners.filter (fun l => !(localOffMatch ctx eventName handler l))⟩

/-- Modelled from the spec: the Document owns the authoritative set of live
nodes and hosts the named event proxies; only the "path" proxy is part of
this model. -/
structure Document where
  nodes : List DocumentNode := []
  pathProxy : ProxyState := {}
deriving DecidableEq, Repr

/-- Modelled from the spec: the collaborator contract
`Document.get(id) → Node or undefined`. Looking up an id the Document does
not hold, or looking up the absent value itself, yields the absent value. -/
def Document.get (d : Document) (i : Option String) : Option DocumentNode :=
  match i with
  | none => none
  | some s => d.nodes.find? (fun n => n.id == s)

/-- Modelled from the spec: `doc.getEventProxy(name)` returns the named
proxy; this model only carries the "path" proxy, so the name is ignored. -/
def Document.getEventProxy (d : Document) (_name : String) : ProxyState :=
  d.pathProxy

/-- From the source, `hasParent()`: `return Boolean(this.parent);` — true iff
a parent id is set and truthy (the empty string is falsy in JavaScript). -/
def DocumentNode.hasParent (n : DocumentNode) : Bool :=
  match n.parent with
  | none => false
  | some s => !(s == "")

/-- From the source, `getParent()`:
`return this.document.get(this.parent);` — whatever the lookup yields is
returned unchanged, the unresolved case included. -/
def DocumentNode.getParent (d : Document) (n : DocumentNode) : Option DocumentNode :=
  d.get n.parent

/-- From the source, `hasChildren()`: `return false;`. -/
def DocumentNode.hasChildren (_n : DocumentNode) : Bool :=
  false

/-- From the source, `getChildIndex(child)`: `return -1;`. -/
def DocumentNode.getChildIndex (_n : DocumentNode) (_child : DocumentNode) : Int :=
  -1

/-- From the source, `getChildAt(idx)`: `return null;`. -/
def DocumentNode.getChildAt (_n : DocumentNode) (_idx : Int) : Option DocumentNode :=
  none

/-- From the source, `getChildCount()`: `return 0;`. -/
def DocumentNode.getChildCount (_n : DocumentNode) : Nat :=
  0

/-- Outcome of the `getRoot()` loop run under an explicit fuel bound: it
returns a node, it crashes with a TypeError (the JavaScript effect of calling
`hasParent` on the `undefined` a failed parent lookup produced), or it is
still iterating when the fuel runs out. -/
inductive RootResult where
  | found (n : DocumentNode)
  | typeError
  | outOfFuel
deriving DecidableEq, Repr

/-- From the source, `getRoot()`:
`var node = this; while (node.hasParent()) { node = node.getParent(); }
return node;` — translated with a fuel parameter bounding the otherwise
possibly nonterminating while loop. When `getParent()` yields the absent
value the next `hasParent()` call of the loop dereferences `undefined`. -/
def DocumentNode.getRoot (d : Document) : Nat → DocumentNode → RootResult
  | 0, _ => .outOfFuel
  | fuel + 1, n =>
    if n.hasParent then
      match DocumentNode.getParent d n with
      | none => .typeError
      | some p => DocumentNode.getRoot d fuel p
    else .found n

/-- From the source, `setHighlighted(highlighted, scope)`: the guard is the
strict comparison `this.highlighted !== highlighted`; inside it the scope and
the flag are assigned and one `highlighted` event carrying the new flag is
emitted. The returned list holds the events the call emitted. -/
def DocumentNode.setHighlighted (n : DocumentNode) (flag : Bool) (scope : Option String) :
    DocumentNode × List (String × Bool) :=
  if n.highlighted ≠ some flag then
    ({ n with highlightedScope := scope, highlighted := some flag },
      [("highlighted", flag)])
  else
    (n, [])

/-- The character class `[a-zA-Z_0-9]` of the regular expression used by
`_matchPropertyEvent`. -/
def isWordChar (c : Char) : Bool :=
  ('a' ≤ c && c ≤ 'z') || ('A' ≤ c && c ≤ 'Z') || ('0' ≤ c && c ≤ '9') || c == '_'

/-- The unanchored scan of `/([a-zA-Z_0-9]+):changed/.exec`: at each start
position the greedy word-character run can only be followed by the literal
`:changed` in full, because shrinking the run by backtracking would put a
word character where the colon must stand; so the search succeeds at the
leftmost position whose maximal word-character run is directly followed by
`:changed`, capturing that run. -/
def matchAux : List Char → Option (List Char)
  | [] => none
  | c :: rest =>
    if isWordChar c then
      if List.isPrefixOf (String.toList ":changed") (List.dropWhile isWordChar (c :: rest)) then
        some (List.takeWhile isWordChar (c :: rest))
      else matchAux rest
    else matchAux rest

/-- From the source, `_matchPropertyEvent(eventName)`: the regular expression
search `([a-zA-Z_0-9]+):changed` applied to the event name, yielding the
captured property name when it matches. -/
def matchPropertyEvent (s : String) : Option String :=
  (matchAux s.toList).map (fun l => String.mk l)

/-- A JavaScript runtime failure: dereferencing the absent document of a
detached node (`undefined.getEventProxy`) throws a TypeError. -/
inductive JsError where
  | typeError
deriving DecidableEq, Repr

/-- From the source, `DocumentNode.on(eventName, handler, ctx)`: when the
event name matches the property pattern and the captured property is part of
`this.constructor.schema`, the handler is additionally registered on the
document path proxy under `[this.id, propertyName]` (on a detached node this
branch dereferences the absent document and throws); in every non-throwing
case `super.on` then installs the local subscription. The result carries the
updated document (if any) and the node local listener state. -/
def DocumentNode.on (n : DocumentNode) (doc : Option Document) (eventName : String)
    (handler ctx : Nat) (em : EmitterState) :
    Except JsError (Option Document × EmitterState) :=
  match matchPropertyEvent eventName with
  | some propertyName =>
    if n.nodeType.schema.contains propertyName then
      match doc with
      | none => .error .typeError
      | some d =>
        let pr := (d.getEventProxy "path").on (n.id, propertyName) handler ctx
        .ok (some { d with pathProxy := pr }, em.on eventName handler ctx)
    else
      .ok (doc, em.on eventName handler ctx)
  | none => .ok (doc, em.on eventName handler ctx)

/-- From the source, `DocumentNode.off(ctx, eventName, handler)`: with no
event name (absent, or the falsy empty string) every path-proxy subscription
owned by the context is dropped; otherwise, when the event name matches the
property pattern, the path-proxy subscription under `[this.id, propertyName]`
is dropped — note that unlike `on` this branch does not consult the schema.
Either proxy call dereferences the absent document of a detached node and
throws. In every non-throwing case `super.off` then deregisters the matching
local subscriptions. -/
def DocumentNode.off (n : DocumentNode) (doc : Option Document) (ctx : Nat)
    (eventName : Option String) (handler : Option Nat) (em : EmitterState) :
    Except JsError (Option Document × EmitterState) :=
  let noEvent : Bool :=
    match eventName with
    | none => true
    | some s => s == ""
  if noEvent then
    match doc with
    | none => .error .typeError
    | some d =>
      let pr := (d.getEventProxy "path").offContext ctx
      .ok (some { d with pathProxy := pr }, em.off ctx eventName handler)
  else
    match matchPropertyEvent (eventName.getD "") with
    | some propertyName =>
      match doc with
      | none => .error .typeError
      | some d =>
        let pr := (d.getEventProxy "path").offPath ctx (n.id, propertyName) handler
        .ok (some { d with pathProxy := pr }, em.off ctx eventName handler)
    | none => .ok (doc, em.off ctx eventName handler)

/-- From the source, `isBlock()`: `return this.constructor.isBlock;` — read
off the type, not the instance. -/
def DocumentNode.isBlock (n : DocumentNode) : Bool :=
  n.nodeType.isBlock

/-- From the source, `isText()`: `return this.constructor.isText;`. -/
def DocumentNode.isText (n : DocumentNode) : Bool :=
  n.nodeType.isText

/-- From the source, `isPropertyAnnotation()`:
`return this.constructor.isPropertyAnnotation;`. -/
def DocumentNode.isPropertyAnnotation (n : DocumentNode) : Bool :=
  n.nodeType.isPropertyAnnotation

/-- From the source, `isInline()`: `return this.constructor.isInline;`. -/
def DocumentNode.isInline (n : DocumentNode) : Bool :=
  n.nodeType.isInline

/-- From the source, `isContainerAnnotation()`:
`return this.constructor.isContainerAnnotation;`. -/
def DocumentNode.isContainerAnnotation (n : DocumentNode) : Bool :=
  n.nodeType.isContainerAnnotation

/-- The parent chain of a node resolves in `k` steps to the root `r`: each
intermediate node has a truthy parent id that the document resolves, and `r`
has none. -/
inductive ReachesRoot (d : Document) : DocumentNode → Nat → DocumentNode → Prop where
  | self (n : DocumentNode) : n.hasParent = false → ReachesRoot d n 0 n
  | step (n p : DocumentNode) (k : Nat) (r : DocumentNode) :
      n.hasParent = true → DocumentNode.getParent d n = some p →
      ReachesRoot d p k r → ReachesRoot d n (k + 1) r

/-- A paragraph-like node type declaring one schema property, `content`. -/
def tyPara : NodeType := { schema := ["content"] }

/-- A concrete node of type `tyPara`, owned by `docPara`. -/
def nodePara : DocumentNode := { id := "n1", nodeType := tyPara }

/-- A second, distinct instance of the paragraph type. -/
def nodeParaTwin : DocumentNode := { id := "n2", nodeType := tyPara }

/-- A concrete document holding `nodePara`. -/
def docPara : Document := { nodes := [nodePara] }

/-- A node whose parent id is set but resolved by no document used here. -/
def nodeOrphan : DocumentNode := { id := "a", parent := some "missing" }

/-- A document holding only `nodeOrphan`, so its parent id is unresolvable. -/
def docOrphan : Document := { nodes := [nodeOrphan] }

/-- First node of a two-cycle of parent ids. -/
def nodeCycA : DocumentNode := { id := "a", parent := some "b" }

/-- Second node of a two-cycle of parent ids. -/
def nodeCycB : DocumentNode := { id := "b", parent := some "a" }

/-- A document whose two nodes form a cyclic parent chain. -/
def docCyc : Document := { nodes := [nodeCycA, nodeCycB] }

/-- Root of the three-level example chain. -/
def nodeChainC : DocumentNode := { id := "c" }

/-- Middle node of the three-level example chain. -/
def nodeChainB : DocumentNode := { id := "b", parent := some "c" }

/-- Bottom node of the three-level example chain. -/
def nodeChainA : DocumentNode := { id := "a", parent := some "b" }

/-- The three-level chain a → b → c as a document. -/
def docChain : Document := { nodes := [nodeChainA, nodeChainB, nodeChainC] }

/-- A node whose highlight flag is currently set, with a stored scope. -/
def nodeHigh : DocumentNode :=
  { id := "h", highlighted := some true, highlightedScope := some "scopeA" }

/-- A proxy registry holding subscriptions owned by contexts 1 and 2. -/
def proxyEx : ProxyState :=
  { entries := [("n1", "content", 7, 1), ("n2", "title", 8, 2), ("n1", "content", 9, 1)] }

/-- A local listener list holding subscriptions owned by contexts 1 and 2. -/
def emEx : EmitterState :=
  { listeners := [("content:changed", 7, 1), ("custom", 9, 1), ("x", 5, 2)] }

/-- A document carrying `proxyEx` as its path proxy. -/
def docEx : Document := { nodes := [nodePara], pathProxy := proxyEx }

/-- C1, counterexample: on a node whose parent id the Document cannot resolve,
`getParent()` does not fail with an `UnresolvedReferenceError` — it returns
the absent value of the lookup; and `getRoot()` on that node fails with a
TypeError (dereferencing `undefined`), not an unresolved-reference failure. -/
theorem getParent_unresolved_counterexample :
    DocumentNode.getParent docOrphan nodeOrphan = none ∧
    DocumentNode.getRoot docOrphan 5 nodeOrphan = RootResult.typeError := by
  exact ⟨rfl, rfl⟩

/-- C1 (amended): for every node whose parent id is set (truthy) but not
resolvable by the owning Document, `getParent()` returns the absent value
rather than raising, and `getRoot()` then crashes with a TypeError when its
traversal dereferences that absent value. -/
theorem getParent_unresolved_absent (d : Document) (n : DocumentNode) (fuel : Nat)
    (hp : n.hasParent = true) (hu : DocumentNode.getParent d n = none) :
    DocumentNode.getParent d n = none ∧
    DocumentNode.getRoot d (fuel + 1) n = RootResult.typeError := by
  refine ⟨hu, ?_⟩
  simp [DocumentNode.getRoot, hp, hu]

/-- C1, witness: the amended statement applied to the concrete one-node
document whose single node carries the unresolvable parent id. -/
theorem getParent_unresolved_absent_witness :
    nodeOrphan.hasParent = true ∧
    DocumentNode.getParent docOrphan nodeOrphan = none ∧
    DocumentNode.getRoot docOrphan 5 nodeOrphan = RootResult.typeError :=
  ⟨by decide, getParent_unresolved_absent docOrphan nodeOrphan 4 (by decide) (by decide)⟩

/-- C2: on the concrete cyclic parent chain a → b → a the `getRoot()` loop is
still running whatever fuel bound it is given — the source has no cycle
detection, so it neither returns nor raises a `CyclicStructureError`; it
loops forever. -/
theorem getRoot_cycle_no_termination : ∀ fuel : Nat,
    DocumentNode.getRoot docCyc fuel nodeCycA = RootResult.outOfFuel ∧
    DocumentNode.getRoot docCyc fuel nodeCycB = RootResult.outOfFuel := by
  intro fuel
  induction fuel with
  | zero => exact ⟨rfl, rfl⟩
  | succ k ih =>
    have ha : DocumentNode.getRoot docCyc (k + 1) nodeCycA =
        DocumentNode.getRoot docCyc k nodeCycB := by
      simp [DocumentNode.getRoot, DocumentNode.hasParent, DocumentNode.getParent,
        Document.get, docCyc, nodeCycA, nodeCycB]
    have hb : DocumentNode.getRoot docCyc (k + 1) nodeCycB =
        DocumentNode.getRoot docCyc k nodeCycA := by
      simp [DocumentNode.getRoot, DocumentNode.hasParent, DocumentNode.getParent,
        Document.get, docCyc, nodeCycA, nodeCycB]
    exact ⟨ha ▸ ih.2, hb ▸ ih.1⟩

/-- C6: `getRoot()` returns the node itself when no parent is set, and on an
acyclic, fully resolvable parent chain of `k` steps it returns the final
ancestor for which `hasParent()` is false, given fuel for the chain. -/
theorem getRoot_follows_chain (d : Document) (n : DocumentNode) (k : Nat)
    (r : DocumentNode) (h : ReachesRoot d n k r) :
    DocumentNode.getRoot d (k + 1) n = RootResult.found r := by
  induction h with
  | self m hm => simp [DocumentNode.getRoot, hm]
  | step m p j r hp hres _ ih =>
    simp only [DocumentNode.getRoot, hp, if_true]
    rw [hres]
    exact ih

/-- C6, witness: the three-level chain a → b → c resolves in two steps, and
`getRoot()` called on a returns c. -/
theorem getRoot_follows_chain_witness :
    ReachesRoot docChain nodeChainA 2 nodeChainC ∧
    DocumentNode.getRoot docChain 3 nodeChainA = RootResult.found nodeChainC := by
  have h : ReachesRoot docChain nodeChainA 2 nodeChainC :=
    ReachesRoot.step nodeChainA nodeChainB 1 nodeChainC (by decide) (by decide)
      (ReachesRoot.step nodeChainB nodeChainC 0 nodeChainC (by decide) (by decide)
        (ReachesRoot.self nodeChainC (by decide)))
  exact ⟨h, getRoot_follows_chain docChain nodeChainA 2 nodeChainC h⟩

/-- Both branches of `setHighlighted` leave the node type untouched. -/
theorem setHighlighted_nodeType (n : DocumentNode) (flag : Bool) (scope : Option String) :
    (n.setHighlighted flag scope).1.nodeType = n.nodeType := by
  unfold DocumentNode.setHighlighted
  split <;> rfl

/-- C5: `setHighlighted` is idempotent in the flag — re-setting the current
flag value changes nothing and emits nothing, flipping it emits exactly one
`highlighted` event carrying the new flag, and the set-true, set-true,
set-false sequence emits on exactly the first and third calls. -/
theorem setHighlighted_idempotent (n : DocumentNode) (flag : Bool) (scope : Option String) :
    (n.highlighted = some flag → n.setHighlighted flag scope = (n, [])) ∧
    (n.highlighted = some (!flag) →
      (n.setHighlighted flag scope).1.highlighted = some flag ∧
      (n.setHighlighted flag scope).2 = [("highlighted", flag)]) ∧
    (n.highlighted ≠ some true →
      (n.setHighlighted true scope).2 = [("highlighted", true)] ∧
      ((n.setHighlighted true scope).1.setHighlighted true scope).2 = [] ∧
      (((n.setHighlighted true scope).1.setHighlighted true scope).1.setHighlighted
        false scope).2 = [("highlighted", false)]) := by
  refine ⟨?_, ?_, ?_⟩
  · intro h
    simp [DocumentNode.setHighlighted, h]
  · intro h
    cases flag <;> simp [DocumentNode.setHighlighted, h]
  · intro h
    simp [DocumentNode.setHighlighted, h]

/-- C5, witness: re-setting the set flag of `nodeHigh` is a no-op, and on the
fresh node `nodePara` the set-true, set-true, set-false sequence emits on
exactly the first and third calls. -/
theorem setHighlighted_idempotent_witness :
    DocumentNode.setHighlighted nodeHigh true (some "scopeA") = (nodeHigh, []) ∧
    ((DocumentNode.setHighlighted nodePara true (some "scopeA")).2 =
        [("highlighted", true)] ∧
      ((nodePara.setHighlighted true (some "scopeA")).1.setHighlighted true
        (some "scopeA")).2 = [] ∧
      (((nodePara.setHighlighted true (some "scopeA")).1.setHighlighted true
        (some "scopeA")).1.setHighlighted false (some "scopeA")).2 =
        [("highlighted", false)]) :=
  ⟨(setHighlighted_idempotent nodeHigh true (some "scopeA")).1 (by decide),
    (setHighlighted_idempotent nodePara true (some "scopeA")).2.2 (by decide)⟩

/-- C9: a call whose flag equals the current `highlighted` value leaves the
whole node — `highlightedScope` included — unchanged and emits nothing, even
when the given scope differs from the stored one; and whenever a call does
change `highlightedScope`, that same call flips the `highlighted` flag. -/
theorem setHighlighted_scope_frame (n : DocumentNode) (flag : Bool) (scope : Option String) :
    (n.highlighted = some flag →
      (n.setHighlighted flag scope).1 = n ∧ (n.setHighlighted flag scope).2 = []) ∧
    ((n.setHighlighted flag scope).1.highlightedScope ≠ n.highlightedScope →
      (n.setHighlighted flag scope).1.highlighted ≠ n.highlighted) := by
  constructor
  · intro h
    simp [DocumentNode.setHighlighted, h]
  · intro hscope
    by_cases h : n.highlighted = some flag
    · exact absurd hscope (by simp [DocumentNode.setHighlighted, h])
    · simp [DocumentNode.setHighlighted, h]
      exact fun hEq => h hEq.symm

/-- C9, witness: re-setting the current flag with a different scope leaves
`nodeHigh` (its stored scope included) unchanged and emits nothing. -/
theorem setHighlighted_scope_frame_witness :
    (DocumentNode.setHighlighted nodeHigh true (some "scopeB")).1 = nodeHigh ∧
    (DocumentNode.setHighlighted nodeHigh true (some "scopeB")).2 = [] :=
  (setHighlighted_scope_frame nodeHigh true (some "scopeB")).1 (by decide)

/-- C7: the five category queries read only the node type — two instances of
the same type agree on all of them, the defaults declared on the base type
are all false, and the one state-mutating operation, `setHighlighted`, never
changes any of them. -/
theorem category_flags_type_level (n₁ n₂ : DocumentNode) (flag : Bool)
    (scope : Option String) (h : n₁.nodeType = n₂.nodeType) :
    (n₁.isBlock = n₂.isBlock ∧ n₁.isText = n₂.isText ∧
      n₁.isPropertyAnnotation = n₂.isPropertyAnnotation ∧
      n₁.isInline = n₂.isInline ∧
      n₁.isContainerAnnotation = n₂.isContainerAnnotation) ∧
    (({} : NodeType).isBlock = false ∧ ({} : NodeType).isText = false ∧
      NodeType.isPropertyAnnotation {} = false ∧
      ({} : NodeType).isInline = false ∧
      NodeType.isContainerAnnotation {} = false) ∧
    ((n₁.setHighlighted flag scope).1.isBlock = n₁.isBlock ∧
      (n₁.setHighlighted flag scope).1.isText = n₁.isText ∧
      DocumentNode.isPropertyAnnotation (n₁.setHighlighted flag scope).1 =
        n₁.isPropertyAnnotation ∧
      (n₁.setHighlighted flag scope).1.isInline = n₁.isInline ∧
      DocumentNode.isContainerAnnotation (n₁.setHighlighted flag scope).1 =
        n₁.isContainerAnnotation) := by
  have hty := setHighlighted_nodeType n₁ flag scope
  refine ⟨?_, ⟨rfl, rfl, rfl, rfl, rfl⟩, ?_⟩
  · simp [DocumentNode.isBlock, DocumentNode.isText, DocumentNode.isPropertyAnnotation,
      DocumentNode.isInline, DocumentNode.isContainerAnnotation, h]
  · simp [DocumentNode.isBlock, DocumentNode.isText, DocumentNode.isPropertyAnnotation,
      DocumentNode.isInline, DocumentNode.isContainerAnnotation, hty]

/-- C7, witness: two distinct instances of the paragraph type agree on all
five category queries, and highlighting one changes none of them. -/
theorem category_flags_type_level_witness :
    (nodePara.isBlock = nodeParaTwin.isBlock ∧ nodePara.isText = nodeParaTwin.isText ∧
      nodePara.isPropertyAnnotation = nodeParaTwin.isPropertyAnnotation ∧
      nodePara.isInline = nodeParaTwin.isInline ∧
      nodePara.isContainerAnnotation = nodeParaTwin.isContainerAnnotation) ∧
    (({} : NodeType).isBlock = false ∧ ({} : NodeType).isText = false ∧
      NodeType.isPropertyAnnotation {} = false ∧
      ({} : NodeType).isInline = false ∧
      NodeType.isContainerAnnotation {} = false) ∧
    ((nodePara.setHighlighted true none).1.isBlock = nodePara.isBlock ∧
      (nodePara.setHighlighted true none).1.isText = nodePara.isText ∧
      DocumentNode.isPropertyAnnotation (nodePara.setHighlighted true none).1 =
        nodePara.isPropertyAnnotation ∧
      (nodePara.setHighlighted true none).1.isInline = nodePara.isInline ∧
      DocumentNode.isContainerAnnotation (nodePara.setHighlighted true none).1 =
        nodePara.isContainerAnnotation) :=
  category_flags_type_level nodePara nodeParaTwin true none (by decide)

/-- C8: on every node of the default (non-container) kind modelled here,
`hasChildren()` is false, `getChildCount()` is 0, `getChildAt(index)` is the
absent value for every index, and `getChildIndex(child)` is -1 for every
argument. -/
theorem child_queries_defaults (n : DocumentNode) (idx : Int) (child : DocumentNode) :
    n.hasChildren = false ∧ n.getChildCount = 0 ∧
    n.getChildAt idx = none ∧ n.getChildIndex child = -1 :=
  ⟨rfl, rfl, rfl, rfl⟩

/-- C3: `on` installs the handler both locally and on the document path proxy
for exactly `(nodeId, propertyName)` when the event name matches the property
pattern with a schema-declared property; an event name that does not match,
or matches with an undeclared property, gives a purely local subscription
that leaves the proxy untouched and raises no error. -/
theorem on_routes_by_schema (n : DocumentNode) (d : Document) (em : EmitterState)
    (eventName : String) (handler ctx : Nat) :
    (∀ p : String, matchPropertyEvent eventName = some p →
      n.nodeType.schema.contains p = true →
      DocumentNode.on n (some d) eventName handler ctx em =
        Except.ok (some { d with pathProxy := d.pathProxy.on (n.id, p) handler ctx },
          em.on eventName handler ctx)) ∧
    (matchPropertyEvent eventName = none →
      DocumentNode.on n (some d) eventName handler ctx em =
        Except.ok (some d, em.on eventName handler ctx)) ∧
    (∀ p : String, matchPropertyEvent eventName = some p →
      n.nodeType.schema.contains p = false →
      DocumentNode.on n (some d) eventName handler ctx em =
        Except.ok (some d, em.on eventName handler ctx)) := by
  refine ⟨?_, ?_, ?_⟩
  · intro p hm hs
    simp at hs
    simp [DocumentNode.on, hm, hs, Document.getEventProxy]
  · intro hm
    simp [DocumentNode.on, hm]
  · intro p hm hs
    simp at hs
    simp [DocumentNode.on, hm, hs]

/-- C3, witness: on the owned paragraph node, subscribing to
"content:changed" registers on the proxy and locally, while "custom" and the
undeclared "title:changed" register locally only, with the proxy uninvolved. -/
theorem on_routes_by_schema_witness :
    DocumentNode.on nodePara (some docPara) "content:changed" 7 1 {} =
      Except.ok
        (some { docPara with
          pathProxy := ProxyState.on docPara.pathProxy ("n1", "content") 7 1 },
          EmitterState.on {} "content:changed" 7 1) ∧
    DocumentNode.on nodePara (some docPara) "custom" 7 1 {} =
      Except.ok (some docPara, EmitterState.on {} "custom" 7 1) ∧
    DocumentNode.on nodePara (some docPara) "title:changed" 7 1 {} =
      Except.ok (some docPara, EmitterState.on {} "title:changed" 7 1) :=
  ⟨(on_routes_by_schema nodePara docPara {} "content:changed" 7 1).1 "content"
      (by decide) (by decide),
    (on_routes_by_schema nodePara docPara {} "custom" 7 1).2.1 (by decide),
    (on_routes_by_schema nodePara docPara {} "title:changed" 7 1).2.2 "title"
      (by decide) (by decide)⟩

/-- C4: `off(ctx)` with no event name leaves no path-proxy subscription and no
local subscription owned by the context; with a schema-declared property
pattern, the path-proxy subscription for `(nodeId, propertyName)` is removed
along with the matching local one. -/
theorem off_deregisters (n : DocumentNode) (d : Document) (em : EmitterState) (ctx : Nat) :
    (DocumentNode.off n (some d) ctx none none em =
        Except.ok (some { d with pathProxy := d.pathProxy.offContext ctx },
          em.off ctx none none) ∧
      (∀ e ∈ (d.pathProxy.offContext ctx).entries, e.2.2.2 ≠ ctx) ∧
      (∀ l ∈ (em.off ctx none none).listeners, l.2.2 ≠ ctx)) ∧
    (∀ ev p : String, ∀ handler : Option Nat, matchPropertyEvent ev = some p →
      n.nodeType.schema.contains p = true →
      DocumentNode.off n (some d) ctx (some ev) handler em =
        Except.ok (some { d with pathProxy := d.pathProxy.offPath ctx (n.id, p) handler },
          em.off ctx (some ev) handler) ∧
      (∀ e ∈ (d.pathProxy.offPath ctx (n.id, p) handler).entries,
        pathOffMatch ctx (n.id, p) handler e = false) ∧
      (∀ l ∈ (em.off ctx (some ev) handler).listeners,
        localOffMatch ctx (some ev) handler l = false)) := by
  constructor
  · refine ⟨by simp [DocumentNode.off, Document.getEventProxy], ?_, ?_⟩
    · intro e he
      simp [ProxyState.offContext, List.mem_filter] at he
      exact he.2
    · intro l hl
      simp [EmitterState.off, localOffMatch, List.mem_filter] at hl
      exact hl.2
  · intro ev p handler hm hs
    have hne : (ev == "") = false := by
      rcases eq_or_ne ev "" with h | h
      · subst h
        simp [matchPropertyEvent, matchAux] at hm
      · simp [h]
    refine ⟨by simp [DocumentNode.off, hne, hm, Document.getEventProxy], ?_, ?_⟩
    · intro e he
      simp [ProxyState.offPath, List.mem_filter] at he
      exact he.2
    · intro l hl
      simp [EmitterState.off, List.mem_filter] at hl
      exact hl.2

/-- C4, witness: on a document whose proxy holds subscriptions of contexts 1
and 2, `off` with no event name drops everything context 1 owns, and `off`
with the declared "content:changed" pattern drops the corresponding proxy
subscription. -/
theorem off_deregisters_witness :
    DocumentNode.off nodePara (some docEx) 1 none none emEx =
      Except.ok (some { docEx with pathProxy := ProxyState.offContext docEx.pathProxy 1 },
        EmitterState.off emEx 1 none none) ∧
    DocumentNode.off nodePara (some docEx) 1 (some "content:changed") (some 7) emEx =
      Except.ok
        (some { docEx with
          pathProxy := ProxyState.offPath docEx.pathProxy 1 (nodePara.id, "content") (some 7) },
          EmitterState.off emEx 1 (some "content:changed") (some 7)) := by
  have h := off_deregisters nodePara docEx emEx 1
  exact ⟨h.1.1, (h.2 "content:changed" "content" (some 7) (by decide) (by decide)).1⟩

/-- C10: on a detached node, `on` with a schema-declared property pattern and
`off` with no event name both dereference the absent document and fail with a
TypeError, while `on` under any non-property event name (no pattern match, or
an undeclared property) succeeds as a purely local subscription. -/
theorem detached_node_safety (n : DocumentNode) (em : EmitterState) (eventName : String)
    (handler ctx : Nat) (hOpt : Option Nat) :
    (∀ p : String, matchPropertyEvent eventName = some p →
      n.nodeType.schema.contains p = true →
      DocumentNode.on n none eventName handler ctx em = Except.error JsError.typeError) ∧
    (DocumentNode.off n none ctx none hOpt em = Except.error JsError.typeError) ∧
    (matchPropertyEvent eventName = none →
      DocumentNode.on n none eventName handler ctx em =
        Except.ok (none, em.on eventName handler ctx)) ∧
    (∀ p : String, matchPropertyEvent eventName = some p →
      n.nodeType.schema.contains p = false →
      DocumentNode.on n none eventName handler ctx em =
        Except.ok (none, em.on eventName handler ctx)) := by
  refine ⟨?_, ?_, ?_, ?_⟩
  · intro p hm hs
    simp at hs
    simp [DocumentNode.on, hm, hs]
  · simp [DocumentNode.off]
  · intro hm
    simp [DocumentNode.on, hm]
  · intro p hm hs
    simp at hs
    simp [DocumentNode.on, hm, hs]

/-- C10, witness: the detached paragraph node fails on `on("content:changed")`
and on `off` with no event name, but subscribes locally without error under
"custom" and under the undeclared "title:changed". -/
theorem detached_node_safety_witness :
    DocumentNode.on nodePara none "content:changed" 7 1 {} =
      Except.error JsError.typeError ∧
    DocumentNode.off nodePara none 1 none none {} = Except.error JsError.typeError ∧
    DocumentNode.on nodePara none "custom" 7 1 {} =
      Except.ok (none, EmitterState.on {} "custom" 7 1) ∧
    DocumentNode.on nodePara none "title:changed" 7 1 {} =
      Except.ok (none, EmitterState.on {} "title:changed" 7 1) := by
  have h := detached_node_safety nodePara {} "content:changed" 7 1 none
  have h2 := detached_node_safety nodePara {} "custom" 7 1 none
  have h3 := detached_node_safety nodePara {} "title:changed" 7 1 none
  exact ⟨h.1 "content" (by decide) (by decide), h.2.1, h2.2.2.1 (by decide),
    h3.2.2.2 "title" (by decide) (by decide)⟩

end Substance
